import Mathlib

/-!
Formal model of the utilization tracker core (collector, database, tracker).

The development shallowly embeds the Python sources:
* `database.py`  — SQLite-backed `MetricsDatabase` (tables, batch inserts,
  retention sweep `cleanup_old_data`, connection/transaction behaviour);
* `collector.py` — `MetricsCollector` (per-family sampling with oracles
  standing for `psutil`/`pynvml` host state and failures);
* `tracker.py`   — `UtilizationTracker` (per-tick family orchestration in
  `_collect_and_store`, sleep computation in `run`);
* `config.py`    — the `metrics` enable flags of `DEFAULT_CONFIG`.

TEXT cells are modelled as `List Char`; SQLite's BINARY collation on the
ASCII strings involved is codepoint-by-codepoint comparison, embedded by
`lexLt`.  Machine floats that merely flow through (percentages, psutil
readings) are modelled as `Rat`; the code performs no arithmetic on them.
Fallible host/database calls are driven by explicit oracle records, one
Boolean per `try`-protected call site.
-/

/-- SQLite BINARY comparison of two TEXT values (memcmp on the encoded
bytes; for the ASCII strings used here this is codepoint order, with a
strict prefix comparing as smaller). -/
def lexLt : List Char → List Char → Bool
  | [], [] => false
  | [], _ :: _ => true
  | _ :: _, [] => false
  | a :: as, b :: bs =>
    if a.toNat < b.toNat then true
    else if b.toNat < a.toNat then false
    else lexLt as bs

/-- The ASCII digit character for `n` (meaningful for `n < 10`). -/
def dchar (n : Nat) : Char := Char.ofNat (48 + n)

/-- Two-digit zero-padded decimal rendering, as produced by `%02d`. -/
def pad2 (n : Nat) : List Char := [dchar (n / 10 % 10), dchar (n % 10)]

/-- Four-digit zero-padded decimal rendering, as produced by `%04d`. -/
def pad4 (n : Nat) : List Char := pad2 (n / 100 % 100) ++ pad2 (n % 100)

/-- Six-digit zero-padded decimal rendering, as produced by `%06d`. -/
def pad6 (n : Nat) : List Char :=
  pad2 (n / 10000 % 100) ++ pad2 (n / 100 % 100) ++ pad2 (n % 100)

/-- A Python `datetime.datetime` value (naive, as produced by
`datetime.now()` in `collector.py` and `database.py`). -/
structure PyDateTime where
  year : Nat
  month : Nat
  day : Nat
  hour : Nat
  minute : Nat
  second : Nat
  usec : Nat
deriving DecidableEq, Repr

/-- Field bounds guaranteeing the fixed-width decimal renderings below are
faithful (every real `datetime` satisfies them). -/
def PyDateTime.Bounded (t : PyDateTime) : Prop :=
  t.year < 10000 ∧ t.month < 100 ∧ t.day < 100 ∧
  t.hour < 100 ∧ t.minute < 100 ∧ t.second < 100 ∧ t.usec < 1000000

instance (t : PyDateTime) : Decidable t.Bounded := by
  unfold PyDateTime.Bounded; infer_instance

/-- The `YYYY-MM-DD` date part of `datetime.isoformat`. -/
def dateChars (t : PyDateTime) : List Char :=
  pad4 t.year ++ ('-' :: (pad2 t.month ++ ('-' :: pad2 t.day)))

/-- The `HH:MM:SS[.ffffff]` time part of `datetime.isoformat`; the
fractional part is omitted exactly when `microsecond == 0`. -/
def timeChars (t : PyDateTime) : List Char :=
  pad2 t.hour ++ (':' :: (pad2 t.minute ++ (':' :: (pad2 t.second ++
    (if t.usec = 0 then [] else '.' :: pad6 t.usec)))))

/-- `datetime.isoformat()` — the 'T'-separated form stored in the
`timestamp` columns by `collector.py` (`datetime.now().isoformat()`). -/
def isoformatT (t : PyDateTime) : List Char :=
  dateChars t ++ ('T' :: timeChars t)

/-- `datetime.isoformat(" ")` — the space-separated form the default
`sqlite3` adapter substitutes for a `datetime` parameter, as happens to
the cutoff in `cleanup_old_data`. -/
def isoformatSpace (t : PyDateTime) : List Char :=
  dateChars t ++ (' ' :: timeChars t)

/-- Numeric key for the calendar date, ordered chronologically. -/
def dateKey (t : PyDateTime) : Nat := (t.year * 100 + t.month) * 100 + t.day

/-- Numeric key for the time of day in microseconds-compatible encoding. -/
def timeKey (t : PyDateTime) : Nat :=
  ((t.hour * 100 + t.minute) * 100 + t.second) * 1000000 + t.usec

/-- Numeric key for the full datetime, ordered chronologically for bounded
values. -/
def dtKey (t : PyDateTime) : Nat := dateKey t * 1000000000000 + timeKey t

theorem char_toNat_inj {a b : Char} (h : a.toNat = b.toNat) : a = b := by
  have := congrArg Char.ofNat h
  rwa [Char.ofNat_toNat, Char.ofNat_toNat] at this

theorem dchar_lt_iff_aux : ∀ x < 10, ∀ y < 10,
    ((dchar x).toNat < (dchar y).toNat ↔ x < y) := by decide

theorem dchar_inj_aux : ∀ x < 10, ∀ y < 10, (dchar x = dchar y ↔ x = y) := by
  decide

theorem dchar_lt_iff {x y : Nat} (hx : x < 10) (hy : y < 10) :
    ((dchar x).toNat < (dchar y).toNat ↔ x < y) :=
  dchar_lt_iff_aux x hx y hy

theorem dchar_inj {x y : Nat} (hx : x < 10) (hy : y < 10) :
    (dchar x = dchar y ↔ x = y) :=
  dchar_inj_aux x hx y hy

theorem lexLt_append : ∀ (as bs xs ys : List Char), as.length = bs.length →
    lexLt (as ++ xs) (bs ++ ys) =
      (if as = bs then lexLt xs ys else lexLt as bs) := by
  intro as
  induction as with
  | nil =>
    intro bs xs ys h
    cases bs with
    | nil => simp
    | cons b bs' => simp at h
  | cons a as' ih =>
    intro bs xs ys h
    cases bs with
    | nil => simp at h
    | cons b bs' =>
      simp only [List.length_cons, Nat.succ.injEq] at h
      by_cases h1 : a.toNat < b.toNat
      · have hne : a ≠ b := fun he => by simp [he] at h1
        simp only [List.cons_append, lexLt, h1, if_true]
        rw [if_neg (by simp [hne])]
      · by_cases h2 : b.toNat < a.toNat
        · have hne : a ≠ b := fun he => by simp [he] at h2
          simp only [List.cons_append, lexLt, h1, h2, if_true, if_false]
          rw [if_neg (by simp [hne])]
        · have hab : a = b := char_toNat_inj (Nat.le_antisymm
            (Nat.not_lt.mp h2) (Nat.not_lt.mp h1))
          subst hab
          simp only [List.cons_append, lexLt, h1, if_false, Nat.lt_irrefl,
            List.append_eq]
          rw [ih bs' xs ys h]
          by_cases h3 : as' = bs'
          · simp [h3]
          · rw [if_neg h3, if_neg (by simp [h3])]

theorem pad2_lt_iff {a b : Nat} (ha : a < 100) (hb : b < 100) :
    lexLt (pad2 a) (pad2 b) = decide (a < b) := by
  have h1 : a / 10 % 10 = a / 10 := Nat.mod_eq_of_lt (by omega)
  have h2 : b / 10 % 10 = b / 10 := Nat.mod_eq_of_lt (by omega)
  have hd1 : a / 10 < 10 := by omega
  have hd2 : b / 10 < 10 := by omega
  have hm1 : a % 10 < 10 := Nat.mod_lt _ (by omega)
  have hm2 : b % 10 < 10 := Nat.mod_lt _ (by omega)
  simp only [pad2, lexLt, h1, h2]
  by_cases hlt : (dchar (a / 10)).toNat < (dchar (b / 10)).toNat
  · have : a / 10 < b / 10 := (dchar_lt_iff hd1 hd2).mp hlt
    simp only [hlt, if_true]
    have : a < b := by omega
    simp [this]
  · by_cases hgt : (dchar (b / 10)).toNat < (dchar (a / 10)).toNat
    · have : b / 10 < a / 10 := (dchar_lt_iff hd2 hd1).mp hgt
      simp only [hlt, hgt, if_true, if_false]
      have : ¬ a < b := by omega
      simp [this]
    · have hde : a / 10 = b / 10 := by
        have h3 : ¬ a / 10 < b / 10 := fun hc => hlt ((dchar_lt_iff hd1 hd2).mpr hc)
        have h4 : ¬ b / 10 < a / 10 := fun hc => hgt ((dchar_lt_iff hd2 hd1).mpr hc)
        omega
      simp only [hlt, hgt, if_false]
      by_cases hlt2 : (dchar (a % 10)).toNat < (dchar (b % 10)).toNat
      · have : a % 10 < b % 10 := (dchar_lt_iff hm1 hm2).mp hlt2
        simp only [hlt2, if_true]
        have : a < b := by omega
        simp [this]
      · by_cases hgt2 : (dchar (b % 10)).toNat < (dchar (a % 10)).toNat
        · have : b % 10 < a % 10 := (dchar_lt_iff hm2 hm1).mp hgt2
          simp only [hlt2, hgt2, if_true, if_false]
          have : ¬ a < b := by omega
          simp [this]
        · have hme : a % 10 = b % 10 := by
            have h3 : ¬ a % 10 < b % 10 := fun hc => hlt2 ((dchar_lt_iff hm1 hm2).mpr hc)
            have h4 : ¬ b % 10 < a % 10 := fun hc => hgt2 ((dchar_lt_iff hm2 hm1).mpr hc)
            omega
          simp only [hlt2, hgt2, if_false, lexLt]
          have : ¬ a < b := by omega
          simp [this]

theorem pad2_inj {a b : Nat} (ha : a < 100) (hb : b < 100) :
    pad2 a = pad2 b ↔ a = b := by
  have h1 : a / 10 % 10 = a / 10 := Nat.mod_eq_of_lt (by omega)
  have h2 : b / 10 % 10 = b / 10 := Nat.mod_eq_of_lt (by omega)
  have hd1 : a / 10 < 10 := by omega
  have hd2 : b / 10 < 10 := by omega
  have hm1 : a % 10 < 10 := Nat.mod_lt _ (by omega)
  have hm2 : b % 10 < 10 := Nat.mod_lt _ (by omega)
  simp only [pad2, h1, h2, List.cons.injEq, and_true]
  rw [dchar_inj hd1 hd2, dchar_inj hm1 hm2]
  omega

theorem pad2_length (n : Nat) : (pad2 n).length = 2 := rfl

theorem pad4_length (n : Nat) : (pad4 n).length = 4 := rfl

theorem pad4_lt_iff {a b : Nat} (ha : a < 10000) (hb : b < 10000) :
    lexLt (pad4 a) (pad4 b) = decide (a < b) := by
  have h1 : a / 100 % 100 = a / 100 := Nat.mod_eq_of_lt (by omega)
  have h2 : b / 100 % 100 = b / 100 := Nat.mod_eq_of_lt (by omega)
  have hd1 : a / 100 < 100 := by omega
  have hd2 : b / 100 < 100 := by omega
  have hm1 : a % 100 < 100 := Nat.mod_lt _ (by omega)
  have hm2 : b % 100 < 100 := Nat.mod_lt _ (by omega)
  simp only [pad4, h1, h2]
  rw [lexLt_append _ _ _ _ (by simp [pad2_length])]
  by_cases he : pad2 (a / 100) = pad2 (b / 100)
  · have hde : a / 100 = b / 100 := (pad2_inj hd1 hd2).mp he
    rw [if_pos he, pad2_lt_iff hm1 hm2]
    have : a % 100 < b % 100 ↔ a < b := by omega
    simp [this]
  · have hde : a / 100 ≠ b / 100 := fun hc => he (by rw [hc])
    rw [if_neg he, pad2_lt_iff hd1 hd2]
    have : a / 100 < b / 100 ↔ a < b := by omega
    simp [this]

theorem pad4_inj {a b : Nat} (ha : a < 10000) (hb : b < 10000) :
    pad4 a = pad4 b ↔ a = b := by
  have h1 : a / 100 % 100 = a / 100 := Nat.mod_eq_of_lt (by omega)
  have h2 : b / 100 % 100 = b / 100 := Nat.mod_eq_of_lt (by omega)
  have hd1 : a / 100 < 100 := by omega
  have hd2 : b / 100 < 100 := by omega
  have hm1 : a % 100 < 100 := Nat.mod_lt _ (by omega)
  have hm2 : b % 100 < 100 := Nat.mod_lt _ (by omega)
  simp only [pad4, h1, h2]
  constructor
  · intro he
    obtain ⟨h5, h6⟩ := List.append_inj he (by simp [pad2_length])
    have e1 := (pad2_inj hd1 hd2).mp h5
    have e2 := (pad2_inj hm1 hm2).mp h6
    omega
  · intro he
    rw [he]

theorem dateChars_length (t : PyDateTime) : (dateChars t).length = 10 := rfl

theorem lexLt_cons_same (a : Char) (u v : List Char) :
    lexLt (a :: u) (a :: v) = lexLt u v := by
  simp only [lexLt, Nat.lt_irrefl, if_false]

theorem dateChars_lt_iff {t1 t2 : PyDateTime}
    (h1 : t1.Bounded) (h2 : t2.Bounded) :
    lexLt (dateChars t1) (dateChars t2) = decide (dateKey t1 < dateKey t2) := by
  obtain ⟨hy1, hm1, hd1, -⟩ := h1
  obtain ⟨hy2, hm2, hd2, -⟩ := h2
  unfold dateChars
  rw [lexLt_append _ _ _ _ (by simp [pad4_length])]
  by_cases hy : pad4 t1.year = pad4 t2.year
  · have ey : t1.year = t2.year := (pad4_inj hy1 hy2).mp hy
    rw [if_pos hy, lexLt_cons_same,
      lexLt_append _ _ _ _ (by simp [pad2_length])]
    by_cases hm : pad2 t1.month = pad2 t2.month
    · have em : t1.month = t2.month := (pad2_inj hm1 hm2).mp hm
      rw [if_pos hm, lexLt_cons_same, pad2_lt_iff hd1 hd2]
      have : t1.day < t2.day ↔ dateKey t1 < dateKey t2 := by
        unfold dateKey; omega
      simp [this]
    · have em : t1.month ≠ t2.month := fun hc => hm (by rw [hc])
      rw [if_neg hm, pad2_lt_iff hm1 hm2]
      have : t1.month < t2.month ↔ dateKey t1 < dateKey t2 := by
        unfold dateKey; omega
      simp [this]
  · have ey : t1.year ≠ t2.year := fun hc => hy (by rw [hc])
    rw [if_neg hy, pad4_lt_iff hy1 hy2]
    have : t1.year < t2.year ↔ dateKey t1 < dateKey t2 := by
      unfold dateKey; omega
    simp [this]

theorem dateChars_inj {t1 t2 : PyDateTime}
    (h1 : t1.Bounded) (h2 : t2.Bounded) :
    dateChars t1 = dateChars t2 ↔ dateKey t1 = dateKey t2 := by
  obtain ⟨hy1, hm1, hd1, -⟩ := h1
  obtain ⟨hy2, hm2, hd2, -⟩ := h2
  constructor
  · intro he
    obtain ⟨e1, e2⟩ := List.append_inj he (by simp [pad4_length])
    have ey := (pad4_inj hy1 hy2).mp e1
    simp only [List.cons.injEq, true_and] at e2
    obtain ⟨e3, e4⟩ := List.append_inj e2 (by simp [pad2_length])
    have em := (pad2_inj hm1 hm2).mp e3
    simp only [List.cons.injEq, true_and] at e4
    have ed := (pad2_inj hd1 hd2).mp e4
    unfold dateKey
    omega
  · intro he
    have ey : t1.year = t2.year := by unfold dateKey at he; omega
    have em : t1.month = t2.month := by unfold dateKey at he; omega
    have ed : t1.day = t2.day := by unfold dateKey at he; omega
    unfold dateChars
    rw [ey, em, ed]

theorem lexLt_T_space (u v : List Char) : lexLt ('T' :: u) (' ' :: v) = false := rfl

theorem lexLt_isoT_isoSpace {r c : PyDateTime}
    (hr : r.Bounded) (hc : c.Bounded) :
    lexLt (isoformatT r) (isoformatSpace c) = decide (dateKey r < dateKey c) := by
  unfold isoformatT isoformatSpace
  rw [lexLt_append _ _ _ _ (by simp [dateChars_length])]
  by_cases he : dateChars r = dateChars c
  · have hk : dateKey r = dateKey c := (dateChars_inj hr hc).mp he
    rw [if_pos he, lexLt_T_space]
    simp [hk]
  · rw [if_neg he, dateChars_lt_iff hr hc]

theorem dtKey_le_imp_dateKey_le {a b : PyDateTime}
    (ha : a.Bounded) (hb : b.Bounded) (h : dtKey a ≤ dtKey b) :
    dateKey a ≤ dateKey b := by
  unfold PyDateTime.Bounded at ha hb
  unfold dtKey timeKey at h
  omega

/-- A row of the `system_metrics` table (`_create_tables` in
`database.py`): INTEGER columns as `Int`, REAL columns as `Rat`,
nullable REAL columns as `Option Rat`, the DATETIME column as the stored
TEXT value. -/
structure SystemRow where
  timestamp : List Char
  cpu_percent : Rat
  cpu_count : Int
  load_avg_1 : Option Rat
  load_avg_5 : Option Rat
  load_avg_15 : Option Rat
  memory_total : Int
  memory_available : Int
  memory_percent : Rat
  memory_used : Int
  swap_total : Int
  swap_used : Int
  swap_percent : Rat
deriving DecidableEq, Repr

/-- A row of the `disk_metrics` table. -/
structure DiskRow where
  timestamp : List Char
  device : String
  mountpoint : String
  total : Int
  used : Int
  free : Int
  percent : Rat
deriving DecidableEq, Repr

/-- A row of the `temperature_metrics` table. -/
structure TempRow where
  timestamp : List Char
  sensor_name : String
  label : String
  current : Rat
  high : Option Rat
  critical : Option Rat
deriving DecidableEq, Repr

/-- The contents of the three tables created by
`MetricsDatabase._create_tables`, in insertion order. -/
structure Tables where
  system_metrics : List SystemRow
  disk_metrics : List DiskRow
  temperature_metrics : List TempRow
deriving DecidableEq, Repr

/-- The names of the tables `_create_tables` creates; there is no GPU
table. -/
def createdTables : List String :=
  ["system_metrics", "disk_metrics", "temperature_metrics"]

/-- A `sqlite3` connection in Python's default (deferred) transaction
mode: `committed` is the durable state any other reader sees, `cur` the
working state of the implicitly opened transaction, `inTxn` whether a
write transaction is open.  A DML statement opens a transaction if none
is open; `commit` publishes `cur`; an exception performs no rollback. -/
structure Conn where
  committed : Tables
  cur : Tables
  inTxn : Bool
deriving DecidableEq, Repr

/-- The state a statement executed on this connection operates on. -/
def curOf (c : Conn) : Tables := if c.inTxn then c.cur else c.committed

/-- Execute one DML statement: begin an implicit transaction if needed
and apply the row change to the working state only. -/
def execDML (f : Tables → Tables) (c : Conn) : Conn :=
  ⟨c.committed, f (curOf c), true⟩

/-- `conn.commit()`: publish the working state and close the
transaction (a no-op when no transaction is open). -/
def commitConn (c : Conn) : Conn := ⟨curOf c, curOf c, false⟩

/-- Result of a `MetricsDatabase` insert call: the connection afterwards
and whether a `sqlite3.Error` was re-raised to the caller. -/
structure DbWrite where
  conn : Conn
  raised : Bool
deriving DecidableEq, Repr

/-- `MetricsDatabase.insert_system_metrics`: one INSERT then `commit`;
on a `sqlite3.Error` (modelled by `fail`) the error is logged and
re-raised, with no rollback. -/
def insert_system_metrics (c : Conn) (row : SystemRow) (fail : Bool) :
    DbWrite :=
  if fail then ⟨c, true⟩
  else
    ⟨commitConn (execDML
      (fun t => { t with system_metrics := t.system_metrics ++ [row] }) c),
     false⟩

/-- The INSERT loop of `insert_disk_metrics`: one INSERT per row;
`failAt k` says whether the k-th `cursor.execute` raises.  Returns the
connection when the loop stops and whether an error occurred. -/
def insertDiskLoop (failAt : Nat → Bool) :
    List DiskRow → Nat → Conn → Conn × Bool
  | [], _, c => (c, false)
  | r :: rs, k, c =>
    if failAt k then (c, true)
    else insertDiskLoop failAt rs (k + 1)
      (execDML (fun t => { t with disk_metrics := t.disk_metrics ++ [r] }) c)

/-- `MetricsDatabase.insert_disk_metrics`: INSERT each row of the batch,
then `commit`; on a `sqlite3.Error` mid-batch the error is logged and
re-raised, with no rollback and no commit. -/
def insert_disk_metrics (c : Conn) (rows : List DiskRow)
    (failAt : Nat → Bool) : DbWrite :=
  let res := insertDiskLoop failAt rows 0 c
  if res.2 then ⟨res.1, true⟩ else ⟨commitConn res.1, false⟩

/-- The INSERT loop of `insert_temperature_metrics`. -/
def insertTempLoop (failAt : Nat → Bool) :
    List TempRow → Nat → Conn → Conn × Bool
  | [], _, c => (c, false)
  | r :: rs, k, c =>
    if failAt k then (c, true)
    else insertTempLoop failAt rs (k + 1)
      (execDML (fun t =>
        { t with temperature_metrics := t.temperature_metrics ++ [r] }) c)

/-- `MetricsDatabase.insert_temperature_metrics`: same shape as the disk
batch insert. -/
def insert_temperature_metrics (c : Conn) (rows : List TempRow)
    (failAt : Nat → Bool) : DbWrite :=
  let res := insertTempLoop failAt rows 0 c
  if res.2 then ⟨res.1, true⟩ else ⟨commitConn res.1, false⟩

/-- Result of `MetricsDatabase.cleanup_old_data`: the connection
afterwards, the value returned to the caller (Python's implicit
`None`), the per-table deleted counts the function logs when any is
positive, and whether an error propagated to the caller. -/
structure CleanupResult where
  conn : Conn
  ret : Option (Nat × Nat × Nat)
  logged : Option (Nat × Nat × Nat)
  raised : Bool
deriving DecidableEq, Repr

/-- `MetricsDatabase.cleanup_old_data`, with the cutoff
`datetime.now() - timedelta(days=retention_days)` passed in directly.
Each DELETE removes the rows whose stored timestamp TEXT compares
below the adapter-rendered cutoff string; `cursor.rowcount` is the
number of rows each DELETE removed; then `commit`.  `failAt = some k`
says the k-th statement raises a `sqlite3.Error` (0, 1, 2 are the three
DELETEs, 3 is the `commit`); statements before it have already taken
effect in the open implicit transaction and, with no rollback in the
`except` block, stay pending there.  The error is logged and **not**
re-raised, and the function always returns `None`. -/
def cleanup_old_data (c : Conn) (cutoff_date : PyDateTime)
    (failAt : Option Nat) : CleanupResult :=
  let cut := isoformatSpace cutoff_date
  if failAt = some 0 then ⟨c, none, none, false⟩
  else
    let c1 := execDML (fun t =>
      { t with system_metrics :=
          t.system_metrics.filter (fun r => !(lexLt r.timestamp cut)) }) c
    let deleted_system :=
      (curOf c).system_metrics.countP (fun r => lexLt r.timestamp cut)
    if failAt = some 1 then ⟨c1, none, none, false⟩
    else
      let c2 := execDML (fun t =>
        { t with disk_metrics :=
            t.disk_metrics.filter (fun r => !(lexLt r.timestamp cut)) }) c1
      let deleted_disk :=
        (curOf c1).disk_metrics.countP (fun r => lexLt r.timestamp cut)
      if failAt = some 2 then ⟨c2, none, none, false⟩
      else
        let c3 := execDML (fun t =>
          { t with temperature_metrics :=
              t.temperature_metrics.filter (fun r => !(lexLt r.timestamp cut)) }) c2
        let deleted_temp :=
          (curOf c2).temperature_metrics.countP
            (fun r => lexLt r.timestamp cut)
        if failAt = some 3 then ⟨c3, none, none, false⟩
        else
          ⟨commitConn c3, none,
           if deleted_system > 0 || deleted_disk > 0 || deleted_temp > 0 then
             some (deleted_system, deleted_disk, deleted_temp)
           else none,
           false⟩

/-- `MetricsDatabase.close` (idempotent; kept for completeness). -/
def closeConn (c : Conn) : Conn := c

theorem curOf_execDML (f : Tables → Tables) (c : Conn) :
    curOf (execDML f c) = f (curOf c) := rfl

theorem committed_execDML (f : Tables → Tables) (c : Conn) :
    (execDML f c).committed = c.committed := rfl

theorem cleanup_committed (c : Conn) (cut : PyDateTime) :
    (cleanup_old_data c cut none).conn.committed =
      ⟨(curOf c).system_metrics.filter
          (fun r => !(lexLt r.timestamp (isoformatSpace cut))),
        (curOf c).disk_metrics.filter
          (fun r => !(lexLt r.timestamp (isoformatSpace cut))),
        (curOf c).temperature_metrics.filter
          (fun r => !(lexLt r.timestamp (isoformatSpace cut)))⟩ := by
  simp [cleanup_old_data, execDML, commitConn, curOf]

/-- The host readings behind `collect_system_metrics`: the `psutil`
values together with one failure flag per `try`-protected call group.
`cpuRaise` stands for `psutil.cpu_percent`/`cpu_count` raising,
`memRaise` for `virtual_memory`/`swap_memory` raising; `load = none`
models the `AttributeError`/`OSError` branch of `getloadavg`. -/
structure SysOracle where
  cpuRaise : Bool
  memRaise : Bool
  cpu_percent : Rat
  cpu_count : Int
  load : Option (Rat × Rat × Rat)
  memory_total : Int
  memory_available : Int
  memory_percent : Rat
  memory_used : Int
  swap_total : Int
  swap_used : Int
  swap_percent : Rat

/-- `MetricsCollector.collect_system_metrics`: builds one record; a
failure of the whole family is logged and **re-raised** (`raise` in the
outer `except`), hence the `Except` result. -/
def collect_system_metrics (now : PyDateTime) (o : SysOracle) :
    Except Unit SystemRow :=
  if o.cpuRaise then .error ()
  else if o.memRaise then .error ()
  else .ok
    { timestamp := isoformatT now
      cpu_percent := o.cpu_percent
      cpu_count := o.cpu_count
      load_avg_1 := o.load.map (fun l => l.1)
      load_avg_5 := o.load.map (fun l => l.2.1)
      load_avg_15 := o.load.map (fun l => l.2.2)
      memory_total := o.memory_total
      memory_available := o.memory_available
      memory_percent := o.memory_percent
      memory_used := o.memory_used
      swap_total := o.swap_total
      swap_used := o.swap_used
      swap_percent := o.swap_percent }

/-- One `psutil.disk_partitions` entry. -/
structure Partition where
  device : String
  mountpoint : String
  fstype : String

/-- One `psutil.disk_usage` result. -/
structure DiskUsage where
  total : Int
  used : Int
  free : Int
  percent : Rat

/-- The host readings behind `collect_disk_metrics`.
`partitionsRaise` stands for `psutil.disk_partitions` raising; a `none`
usage models the per-partition `PermissionError`/`Exception` branch. -/
structure DiskOracle where
  partitionsRaise : Bool
  partitions : List Partition
  usage : Partition → Option DiskUsage

/-- `MetricsCollector.collect_disk_metrics`: skips pseudo filesystems
(`fstype == ''`) and loop devices (`'loop' in device`); a failing
partition is warned about and skipped; a failure of the whole family is
logged and **re-raised**. -/
def collect_disk_metrics (now : PyDateTime) (o : DiskOracle) :
    Except Unit (List DiskRow) :=
  if o.partitionsRaise then .error ()
  else .ok (o.partitions.foldl (fun acc p =>
    if p.fstype = "" || decide ("loop".toList <:+: p.device.toList) then acc
    else
      match o.usage p with
      | none => acc
      | some u => acc ++
          [⟨isoformatT now, p.device, p.mountpoint,
            u.total, u.used, u.free, u.percent⟩]) [])

/-- One entry of a `psutil.sensors_temperatures()` sensor list. -/
structure TempEntry where
  label : String
  current : Rat
  high : Option Rat
  critical : Option Rat

/-- The host readings behind `collect_temperature_metrics`.
`sensorsRaise` stands for `sensors_temperatures` raising
(`AttributeError` on unsupported platforms included). -/
structure TempOracle where
  sensorsRaise : Bool
  sensors : List (String × List TempEntry)

/-- Python truthiness of an optional float: `x if x else None` maps a
value of `0.0` (and `None`) to `None`. -/
def pyTruthy (x : Option Rat) : Option Rat :=
  match x with
  | some v => if v = 0 then none else some v
  | none => none

/-- `MetricsCollector.collect_temperature_metrics`: a family-level
sensor failure is caught and yields the rows gathered so far (none),
so the call **never raises** and returns a plain list. -/
def collect_temperature_metrics (now : PyDateTime) (o : TempOracle) :
    List TempRow :=
  if o.sensorsRaise then []
  else o.sensors.foldl (fun acc s =>
    acc ++ s.2.map (fun e =>
      ⟨isoformatT now, s.1,
       if e.label = "" then "unknown" else e.label,
       e.current, pyTruthy e.high, pyTruthy e.critical⟩)) []

/-- The GPU-related state of a `MetricsCollector` instance set up by
`__init__`. -/
structure CollectorState where
  nvidia_initialized : Bool
  gpu_count : Nat
deriving DecidableEq, Repr

/-- `MetricsCollector.__init__`: `pynvml.nvmlInit` is attempted exactly
once, and only when the library imported; on failure the flag stays
`False` forever.  `initRes` is the outcome of that single attempt
(`.ok n` = initialized with `n` GPUs). -/
def collectorInit (gpuLibAvailable : Bool) (initRes : Except Unit Nat) :
    CollectorState :=
  if gpuLibAvailable then
    match initRes with
    | .ok n => ⟨true, n⟩
    | .error _ => ⟨false, 0⟩
  else ⟨false, 0⟩

/-- The per-GPU readings produced by the `pynvml` queries. -/
structure GpuReading where
  gpu_name : String
  gpu_utilization : Nat
  memory_utilization : Nat
  memory_total : Int
  memory_used : Int
  memory_free : Int
  temperature : Option Int
  power_draw : Option Rat
  power_limit : Option Rat
  fan_speed : Option Nat

/-- One GPU record as assembled by `collect_gpu_metrics` (there is no
corresponding database table). -/
structure GpuRow where
  timestamp : List Char
  gpu_index : Nat
  gpu_name : String
  gpu_utilization : Nat
  memory_utilization : Nat
  memory_total : Int
  memory_used : Int
  memory_free : Int
  temperature : Option Int
  power_draw : Option Rat
  power_limit : Option Rat
  fan_speed : Option Nat
deriving DecidableEq, Repr

/-- The readings behind `collect_gpu_metrics`; `queryRaiseAt i` stands
for one of the non-guarded `pynvml` queries for GPU `i` raising (which
aborts the loop; the rows gathered so far are returned). -/
structure GpuOracle where
  queryRaiseAt : Nat → Bool
  reading : Nat → GpuReading

/-- The `for i in range(self.gpu_count)` loop of `collect_gpu_metrics`
(`fuel` counts the remaining indices). -/
def collectGpuLoop (now : PyDateTime) (o : GpuOracle) :
    Nat → Nat → List GpuRow → List GpuRow
  | 0, _, acc => acc
  | fuel + 1, i, acc =>
    if o.queryRaiseAt i then acc
    else
      let g := o.reading i
      collectGpuLoop now o fuel (i + 1) (acc ++
        [⟨isoformatT now, i, g.gpu_name, g.gpu_utilization,
          g.memory_utilization, g.memory_total, g.memory_used,
          g.memory_free, g.temperature, g.power_draw, g.power_limit,
          g.fan_speed⟩])

/-- `MetricsCollector.collect_gpu_metrics`: when the NVIDIA subsystem
is not initialized the `if` guard skips everything and the call returns
an empty list; every failure inside is caught, so the call **never
raises**; the instance state is returned unchanged (no re-init). -/
def collect_gpu_metrics (st : CollectorState) (now : PyDateTime)
    (o : GpuOracle) : List GpuRow × CollectorState :=
  if st.nvidia_initialized then
    (collectGpuLoop now o st.gpu_count 0 [], st)
  else ([], st)

/-- The metric family of one collect-and-store step
(`gpu` exists in the Sampler but has no step in the tracker). -/
inductive Family
  | system
  | disk
  | temperature
  | gpu
deriving DecidableEq, Repr

instance : Fintype Family :=
  ⟨⟨[Family.system, Family.disk, Family.temperature, Family.gpu], by decide⟩,
   fun x => by cases x <;> decide⟩

/-- The `metrics` enable flags of `Config.DEFAULT_CONFIG`
(`config.py`); note there is no `gpu` flag. -/
structure MetricsFlags where
  cpu : Bool
  memory : Bool
  disk : Bool
  load_average : Bool
  temperature : Bool
deriving DecidableEq, Repr

/-- The default `metrics` section: every flag `True`. -/
def defaultMetricsFlags : MetricsFlags := ⟨true, true, true, true, true⟩

/-- `UtilizationTracker._collect_and_store`: control skeleton of one
tick.  `fails f` says whether family `f`'s collect-or-insert step
raises.  Returns the families whose step was started, in order, and
whether the single tick-level `except` handler logged an error (the
handler swallows the exception, so the call itself never raises and the
run loop continues). -/
def collect_and_store (cfg : MetricsFlags) (fails : Family → Bool) :
    List Family × Bool :=
  if (cfg.cpu || cfg.memory) && fails Family.system then
    ([Family.system], true)
  else
    let a1 : List Family :=
      if cfg.cpu || cfg.memory then [Family.system] else []
    if cfg.disk && fails Family.disk then (a1 ++ [Family.disk], true)
    else
      let a2 := a1 ++ (if cfg.disk then [Family.disk] else [])
      if cfg.temperature && fails Family.temperature then
        (a2 ++ [Family.temperature], true)
      else
        (a2 ++ (if cfg.temperature then [Family.temperature] else []), false)

/-- The sleep computation at the bottom of `UtilizationTracker.run`:
`sleep_time = max(0, interval - elapsed)`; sleep only when positive,
otherwise log the cadence-overrun warning and loop immediately.
Returns (seconds slept, whether the warning was logged). -/
def tick_sleep (interval elapsed : Rat) : Rat × Bool :=
  let sleep_time := max 0 (interval - elapsed)
  if sleep_time > 0 then (sleep_time, false) else (0, true)

/-- Fixture: an empty database (state right after `connect`). -/
def emptyTables : Tables := ⟨[], [], []⟩

/-- Fixture: a fresh connection on an empty database. -/
def emptyConn : Conn := ⟨emptyTables, emptyTables, false⟩

/-- Fixture: a sample instant used as retention-sweep cutoff. -/
def dt1 : PyDateTime := ⟨2024, 2, 1, 0, 0, 0, 0⟩

/-- Fixture: an instant a month before `dt1`. -/
def dtOld : PyDateTime := ⟨2024, 1, 1, 12, 30, 0, 0⟩

/-- Fixture: a disk row sampled at `dtOld`. -/
def drowOld : DiskRow := ⟨isoformatT dtOld, "/dev/sda1", "/", 100, 50, 50, 50⟩

/-- Fixture: a database holding only `drowOld`. -/
def tablesOld : Tables := ⟨[], [drowOld], []⟩

/-- Fixture: an idle connection on `tablesOld`. -/
def connOld : Conn := ⟨tablesOld, tablesOld, false⟩

/-- Fixture: first disk row of a two-row batch. -/
def drowA : DiskRow := ⟨isoformatT dtOld, "/dev/sda1", "/", 100, 40, 60, 40⟩

/-- Fixture: second disk row of a two-row batch. -/
def drowB : DiskRow :=
  ⟨isoformatT dtOld, "/dev/sdb1", "/data", 200, 100, 100, 50⟩

/-- Fixture: a system row. -/
def srowA : SystemRow :=
  ⟨isoformatT dtOld, 10, 4, none, none, none, 100, 50, 50, 50, 0, 0, 0⟩

/-- Fixture: a system-family sampling where `psutil.cpu_percent` raises. -/
def sysOracleRaise : SysOracle := ⟨true, false, 0, 0, none, 0, 0, 0, 0, 0, 0, 0⟩

/-- Fixture: a disk-family sampling where `psutil.disk_partitions`
raises. -/
def diskOracleRaise : DiskOracle := ⟨true, [], fun _ => none⟩

/-- Fixture: a temperature sampling where `sensors_temperatures`
raises. -/
def tempOracleRaise : TempOracle := ⟨true, []⟩

/-- Fixture: a GPU oracle with no failures and a fixed reading. -/
def gpuOracle0 : GpuOracle :=
  ⟨fun _ => false, fun _ => ⟨"gpu", 0, 0, 0, 0, 0, none, none, none, none⟩⟩

/-- C8: for every tick with elapsed time `e` and interval `i`, the
scheduler sleeps exactly `max 0 (i - e)` seconds, and the
cadence-overrun warning is logged (with no sleep) precisely when
`e ≥ i`, after which the loop proceeds immediately to the next tick. -/
theorem tick_sleep_policy (interval elapsed : Rat) :
    (tick_sleep interval elapsed).1 = max 0 (interval - elapsed) ∧
    ((tick_sleep interval elapsed).2 = true ↔ interval ≤ elapsed) := by
  simp only [tick_sleep]
  by_cases h : (0 : Rat) < interval - elapsed
  · have hmax : max 0 (interval - elapsed) = interval - elapsed :=
      max_eq_right h.le
    rw [hmax, if_pos h]
    refine ⟨rfl, ?_⟩
    constructor
    · intro hx
      exact absurd hx (by simp)
    · intro hle
      exfalso
      linarith
  · push_neg at h
    have hmax : max 0 (interval - elapsed) = 0 := max_eq_left h
    rw [hmax, if_neg (lt_irrefl 0)]
    refine ⟨rfl, ?_⟩
    constructor
    · intro _
      linarith
    · intro _
      rfl

/-- C10: the `metrics.load_average` flag is never consulted by the
tick: flipping it changes nothing, and the system family (CPU, load
averages, memory, swap as one record) is attempted iff `metrics.cpu`
or `metrics.memory` is enabled. -/
theorem load_average_flag_never_consulted (cfg : MetricsFlags)
    (fails : Family → Bool) (b : Bool) :
    collect_and_store { cfg with load_average := b } fails =
      collect_and_store cfg fails ∧
    (Family.system ∈ (collect_and_store cfg fails).1 ↔
      (cfg.cpu || cfg.memory) = true) := by
  rcases cfg with ⟨c, m, d, l, t⟩
  revert fails
  cases b <;> cases c <;> cases m <;> cases d <;> cases l <;> cases t <;>
    decide

/-- C9: GPU initialization is attempted only at construction; when the
library is absent or `nvmlInit` fails, the collector is permanently
uninitialized and every subsequent GPU sampling call returns an empty
list with the state unchanged (no re-initialization) and never
raises. -/
theorem gpu_init_once_then_empty (avail : Bool) (r : Except Unit Nat)
    (h : avail = false ∨ r = .error ()) (now : PyDateTime) (o : GpuOracle) :
    (collectorInit avail r).nvidia_initialized = false ∧
    collect_gpu_metrics (collectorInit avail r) now o =
      ([], collectorInit avail r) := by
  have hinit : (collectorInit avail r).nvidia_initialized = false := by
    rcases h with h | h
    · subst h
      rfl
    · subst h
      cases avail <;> rfl
  exact ⟨hinit, by simp [collect_gpu_metrics, hinit]⟩

/-- Witness for C9 at a concrete failed initialization. -/
theorem gpu_init_once_then_empty_witness :
    (collectorInit true (Except.error ())).nvidia_initialized = false ∧
    collect_gpu_metrics (collectorInit true (Except.error ())) dt1
      gpuOracle0 = ([], collectorInit true (Except.error ())) :=
  gpu_init_once_then_empty true (Except.error ()) (Or.inr rfl) dt1 gpuOracle0

/-- C3 counterexample: with the default flags, a failure in the system
family's step means the disk and temperature steps of the same tick are
never attempted. -/
theorem system_step_failure_skips_other_families :
    collect_and_store defaultMetricsFlags (fun f => f == Family.system) =
      ([Family.system], true) ∧
    Family.disk ∉ (collect_and_store defaultMetricsFlags
      (fun f => f == Family.system)).1 ∧
    Family.temperature ∉ (collect_and_store defaultMetricsFlags
      (fun f => f == Family.system)).1 := by
  decide

/-- C3 amended: the single tick-level `except` catches a family step
failure (so the loop continues to the next tick), but the families
ordered after the failing one are skipped for the rest of that tick;
earlier enabled families are still attempted. -/
theorem family_step_failure_aborts_tick (cfg : MetricsFlags)
    (fails : Family → Bool) :
    ((cfg.cpu || cfg.memory) = true → fails Family.system = true →
      collect_and_store cfg fails = ([Family.system], true)) ∧
    (cfg.disk = true → fails Family.disk = true →
      ((cfg.cpu || cfg.memory) = true → fails Family.system = false) →
      collect_and_store cfg fails =
        ((if cfg.cpu || cfg.memory then [Family.system] else []) ++
          [Family.disk], true)) ∧
    (cfg.temperature = true → fails Family.temperature = true →
      ((cfg.cpu || cfg.memory) = true → fails Family.system = false) →
      (cfg.disk = true → fails Family.disk = false) →
      collect_and_store cfg fails =
        ((if cfg.cpu || cfg.memory then [Family.system] else []) ++
          (if cfg.disk then [Family.disk] else []) ++
          [Family.temperature], true)) := by
  rcases cfg with ⟨c, m, d, l, t⟩
  refine ⟨?_, ?_, ?_⟩ <;> revert fails <;>
    cases c <;> cases m <;> cases d <;> cases l <;> cases t <;> decide

/-- Witness for the amended C3 at a concrete disk-step failure. -/
theorem family_step_failure_aborts_tick_witness :
    collect_and_store defaultMetricsFlags (fun f => f == Family.disk) =
      ((if defaultMetricsFlags.cpu || defaultMetricsFlags.memory then
          [Family.system] else []) ++ [Family.disk], true) :=
  (family_step_failure_aborts_tick defaultMetricsFlags
    (fun f => f == Family.disk)).2.1 rfl rfl (fun _ => rfl)

/-- C5 counterexample: the schema has no GPU table and a full
default-config tick attempts only the system, disk and temperature
families — GPU samples are never stored. -/
theorem no_gpu_table_no_gpu_step :
    createdTables =
      ["system_metrics", "disk_metrics", "temperature_metrics"] ∧
    "gpu_metrics" ∉ createdTables ∧
    collect_and_store defaultMetricsFlags (fun _ => false) =
      ([Family.system, Family.disk, Family.temperature], false) ∧
    Family.gpu ∉
      (collect_and_store defaultMetricsFlags (fun _ => false)).1 := by
  decide

/-- C5 amended: the storage engine has tables (and insert operations)
only for the system, disk and temperature families, and no tick ever
attempts a GPU collect-and-store step, even though the Sampler
implements `collect_gpu_metrics`. -/
theorem gpu_family_never_stored (cfg : MetricsFlags)
    (fails : Family → Bool) :
    Family.gpu ∉ (collect_and_store cfg fails).1 ∧
    "gpu_metrics" ∉ createdTables := by
  constructor
  · rcases cfg with ⟨c, m, d, l, t⟩
    revert fails
    cases c <;> cases m <;> cases d <;> cases l <;> cases t <;> decide
  · decide

/-- C4 counterexample: a family-level failure in the disk sampler (and
likewise the system sampler) propagates an exception to the caller
instead of returning an empty list. -/
theorem disk_system_family_failure_raises :
    collect_disk_metrics dt1 diskOracleRaise = .error () ∧
    collect_system_metrics dt1 sysOracleRaise = .error () :=
  ⟨rfl, rfl⟩

/-- C4 amended: on a whole-family failure the temperature and GPU
sampling operations return an empty list and never raise, while the
system and disk sampling operations log and re-raise the exception to
the caller. -/
theorem family_failure_policy (now : PyDateTime) (so : SysOracle)
    (dko : DiskOracle) (tpo : TempOracle) (st : CollectorState)
    (go : GpuOracle) :
    (so.cpuRaise = true → collect_system_metrics now so = .error ()) ∧
    (dko.partitionsRaise = true → collect_disk_metrics now dko = .error ()) ∧
    (tpo.sensorsRaise = true → collect_temperature_metrics now tpo = []) ∧
    (st.nvidia_initialized = false →
      collect_gpu_metrics st now go = ([], st)) := by
  refine ⟨?_, ?_, ?_, ?_⟩ <;> intro h <;>
    simp [collect_system_metrics, collect_disk_metrics,
      collect_temperature_metrics, collect_gpu_metrics, h]

/-- Witness for the amended C4 at concrete failing oracles. -/
theorem family_failure_policy_witness :
    collect_system_metrics dt1 sysOracleRaise = .error () ∧
    collect_disk_metrics dt1 diskOracleRaise = .error () ∧
    collect_temperature_metrics dt1 tempOracleRaise = [] ∧
    collect_gpu_metrics ⟨false, 0⟩ dt1 gpuOracle0 = ([], ⟨false, 0⟩) :=
  ⟨(family_failure_policy dt1 sysOracleRaise diskOracleRaise
      tempOracleRaise ⟨false, 0⟩ gpuOracle0).1 rfl,
   (family_failure_policy dt1 sysOracleRaise diskOracleRaise
      tempOracleRaise ⟨false, 0⟩ gpuOracle0).2.1 rfl,
   (family_failure_policy dt1 sysOracleRaise diskOracleRaise
      tempOracleRaise ⟨false, 0⟩ gpuOracle0).2.2.1 rfl,
   (family_failure_policy dt1 sysOracleRaise diskOracleRaise
      tempOracleRaise ⟨false, 0⟩ gpuOracle0).2.2.2 rfl⟩

/-- C6 counterexample: a `sqlite3.Error` at the temperature DELETE of
the sweep (after the system and disk DELETEs ran) is absorbed inside
`cleanup_old_data`: nothing is raised to the Scheduler and `None` is
returned — while the stale disk row's deletion, not yet committed,
stays pending in the open transaction and is published by the next
commit on the connection. -/
theorem sweep_failure_absorbed :
    (cleanup_old_data connOld dt1 (some 2)).raised = false ∧
    (cleanup_old_data connOld dt1 (some 2)).ret = none ∧
    (cleanup_old_data connOld dt1 (some 2)).conn.committed = tablesOld ∧
    curOf (cleanup_old_data connOld dt1 (some 2)).conn = ⟨[], [], []⟩ ∧
    (commitConn (cleanup_old_data connOld dt1 (some 2)).conn).committed =
      ⟨[], [], []⟩ := by
  decide

/-- C6 amended: insert failures are re-raised to the caller, but a
`sqlite3.Error` during the retention sweep is caught inside
`cleanup_old_data`, logged, and never surfaces to the Scheduler, which
receives `None`.  No sweep failure commits anything, yet there is no
rollback: the DELETEs executed before the failing statement stay
pending in the still-open transaction, and the next commit on the same
connection publishes them — stated here for a failure at the disk
DELETE (the system DELETE stays pending) and at the `commit` itself
(all three DELETEs stay pending). -/
theorem storage_error_policy (c : Conn) (row : SystemRow)
    (cut : PyDateTime) (failAt : Option Nat) :
    (insert_system_metrics c row true).raised = true ∧
    (cleanup_old_data c cut failAt).raised = false ∧
    (cleanup_old_data c cut failAt).ret = none ∧
    (failAt = some 1 →
      (cleanup_old_data c cut failAt).conn.committed = c.committed ∧
      (commitConn (cleanup_old_data c cut failAt).conn).committed =
        { curOf c with
          system_metrics :=
            (curOf c).system_metrics.filter
              (fun r => !(lexLt r.timestamp (isoformatSpace cut))) }) ∧
    (failAt = some 3 →
      (cleanup_old_data c cut failAt).conn.committed = c.committed ∧
      (commitConn (cleanup_old_data c cut failAt).conn).committed =
        ⟨(curOf c).system_metrics.filter
            (fun r => !(lexLt r.timestamp (isoformatSpace cut))),
          (curOf c).disk_metrics.filter
            (fun r => !(lexLt r.timestamp (isoformatSpace cut))),
          (curOf c).temperature_metrics.filter
            (fun r => !(lexLt r.timestamp (isoformatSpace cut)))⟩) := by
  refine ⟨rfl, ?_, ?_, ?_, ?_⟩
  · simp only [cleanup_old_data]
    split_ifs <;> rfl
  · simp only [cleanup_old_data]
    split_ifs <;> rfl
  · intro h
    subst h
    exact ⟨rfl, rfl⟩
  · intro h
    subst h
    exact ⟨rfl, rfl⟩

/-- Witness for the amended C6 at a concrete connection, with the
sweep failing at its final `commit`. -/
theorem storage_error_policy_witness :
    (insert_system_metrics connOld srowA true).raised = true ∧
    (cleanup_old_data connOld dt1 (some 3)).raised = false ∧
    (cleanup_old_data connOld dt1 (some 3)).ret = none ∧
    ((cleanup_old_data connOld dt1 (some 3)).conn.committed =
        connOld.committed ∧
      (commitConn (cleanup_old_data connOld dt1 (some 3)).conn).committed =
        ⟨(curOf connOld).system_metrics.filter
            (fun r => !(lexLt r.timestamp (isoformatSpace dt1))),
          (curOf connOld).disk_metrics.filter
            (fun r => !(lexLt r.timestamp (isoformatSpace dt1))),
          (curOf connOld).temperature_metrics.filter
            (fun r => !(lexLt r.timestamp (isoformatSpace dt1)))⟩) :=
  ⟨(storage_error_policy connOld srowA dt1 (some 3)).1,
   (storage_error_policy connOld srowA dt1 (some 3)).2.1,
   (storage_error_policy connOld srowA dt1 (some 3)).2.2.1,
   (storage_error_policy connOld srowA dt1 (some 3)).2.2.2.2 rfl⟩

theorem insertDiskLoop_ok (failAt : Nat → Bool) :
    ∀ (rows : List DiskRow) (k : Nat) (c : Conn),
    (∀ j, j < rows.length → failAt (k + j) = false) →
    (insertDiskLoop failAt rows k c).2 = false ∧
    (insertDiskLoop failAt rows k c).1.committed = c.committed ∧
    curOf (insertDiskLoop failAt rows k c).1 =
      { curOf c with disk_metrics := (curOf c).disk_metrics ++ rows } := by
  intro rows
  induction rows with
  | nil =>
    intro k c h
    refine ⟨rfl, rfl, ?_⟩
    simp [insertDiskLoop]
  | cons r rs ih =>
    intro k c h
    have h0 : failAt k = false := by simpa using h 0 (by simp)
    simp only [insertDiskLoop, h0, Bool.false_eq_true, if_false]
    have hs : ∀ j, j < rs.length → failAt (k + 1 + j) = false := by
      intro j hj
      have := h (j + 1) (by simpa using Nat.succ_lt_succ hj)
      have e : k + (j + 1) = k + 1 + j := by omega
      rwa [e] at this
    obtain ⟨h1, h2, h3⟩ := ih (k + 1)
      (execDML (fun t =>
        { t with disk_metrics := t.disk_metrics ++ [r] }) c) hs
    refine ⟨h1, ?_, ?_⟩
    · rw [h2]
      rfl
    · rw [h3, curOf_execDML]
      simp

theorem insertDiskLoop_fail (failAt : Nat → Bool) :
    ∀ (rows : List DiskRow) (j k : Nat) (c : Conn),
    j < rows.length → failAt (k + j) = true →
    (∀ i, i < j → failAt (k + i) = false) →
    (insertDiskLoop failAt rows k c).2 = true ∧
    (insertDiskLoop failAt rows k c).1.committed = c.committed ∧
    curOf (insertDiskLoop failAt rows k c).1 =
      { curOf c with
        disk_metrics := (curOf c).disk_metrics ++ rows.take j } := by
  intro rows
  induction rows with
  | nil =>
    intro j k c hj
    simp at hj
  | cons r rs ih =>
    intro j k c hj hf hb
    cases j with
    | zero =>
      have h0 : failAt k = true := by simpa using hf
      simp only [insertDiskLoop, h0, if_true]
      refine ⟨trivial, trivial, ?_⟩
      simp
    | succ j' =>
      have h0 : failAt k = false := by simpa using hb 0 (Nat.succ_pos _)
      simp only [insertDiskLoop, h0, Bool.false_eq_true, if_false]
      have hf' : failAt (k + 1 + j') = true := by
        have e : k + (j' + 1) = k + 1 + j' := by omega
        rwa [e] at hf
      have hb' : ∀ i, i < j' → failAt (k + 1 + i) = false := by
        intro i hi
        have := hb (i + 1) (Nat.succ_lt_succ hi)
        have e : k + (i + 1) = k + 1 + i := by omega
        rwa [e] at this
      have hj' : j' < rs.length := by simpa using Nat.lt_of_succ_lt_succ hj
      obtain ⟨h1, h2, h3⟩ := ih j' (k + 1)
        (execDML (fun t =>
          { t with disk_metrics := t.disk_metrics ++ [r] }) c) hj' hf' hb'
      refine ⟨h1, ?_, ?_⟩
      · rw [h2]
        rfl
      · rw [h3, curOf_execDML]
        simp

/-- C2 amended: a successful batch insert commits all N rows together;
a failure after the first `j` rows surfaces the error and leaves the
batch uncommitted at that point, but the `j` already-inserted rows stay
pending in the open transaction (no rollback), so the next commit on
the same connection makes exactly those partial rows visible. -/
theorem insert_disk_metrics_atomicity (c : Conn) (rows : List DiskRow)
    (failAt : Nat → Bool) :
    ((∀ j, j < rows.length → failAt j = false) →
      (insert_disk_metrics c rows failAt).raised = false ∧
      (insert_disk_metrics c rows failAt).conn.committed =
        { curOf c with
          disk_metrics := (curOf c).disk_metrics ++ rows }) ∧
    (∀ j, j < rows.length → failAt j = true →
      (∀ i, i < j → failAt i = false) →
      (insert_disk_metrics c rows failAt).raised = true ∧
      (insert_disk_metrics c rows failAt).conn.committed = c.committed ∧
      (commitConn (insert_disk_metrics c rows failAt).conn).committed =
        { curOf c with
          disk_metrics := (curOf c).disk_metrics ++ rows.take j }) := by
  constructor
  · intro h
    have h' : ∀ j, j < rows.length → failAt (0 + j) = false := by
      simpa using h
    obtain ⟨h1, h2, h3⟩ := insertDiskLoop_ok failAt rows 0 c h'
    constructor
    · simp [insert_disk_metrics, h1]
    · simp only [insert_disk_metrics, h1, Bool.false_eq_true, if_false]
      show (commitConn (insertDiskLoop failAt rows 0 c).1).committed = _
      rw [commitConn]
      exact h3
  · intro j hj hf hb
    have hf' : failAt (0 + j) = true := by simpa using hf
    have hb' : ∀ i, i < j → failAt (0 + i) = false := by simpa using hb
    obtain ⟨h1, h2, h3⟩ := insertDiskLoop_fail failAt rows j 0 c hj hf' hb'
    refine ⟨?_, ?_, ?_⟩
    · simp [insert_disk_metrics, h1]
    · simp only [insert_disk_metrics, h1, if_true]
      exact h2
    · simp only [insert_disk_metrics, h1, if_true]
      show (commitConn (insertDiskLoop failAt rows 0 c).1).committed = _
      rw [commitConn]
      exact h3

/-- Witness for the amended C2: a two-row batch failing on its second
INSERT raises, commits nothing, and leaves exactly the first row
pending for the next commit; the same batch without failures commits
both rows. -/
theorem insert_disk_metrics_atomicity_witness :
    ((insert_disk_metrics emptyConn [drowA, drowB]
        (fun _ => false)).raised = false ∧
      (insert_disk_metrics emptyConn [drowA, drowB]
          (fun _ => false)).conn.committed =
        { curOf emptyConn with
          disk_metrics :=
            (curOf emptyConn).disk_metrics ++ [drowA, drowB] }) ∧
    ((insert_disk_metrics emptyConn [drowA, drowB]
        (fun k => decide (k = 1))).raised = true ∧
      (insert_disk_metrics emptyConn [drowA, drowB]
          (fun k => decide (k = 1))).conn.committed = emptyConn.committed ∧
      (commitConn (insert_disk_metrics emptyConn [drowA, drowB]
          (fun k => decide (k = 1))).conn).committed =
        { curOf emptyConn with
          disk_metrics :=
            (curOf emptyConn).disk_metrics ++
              [drowA, drowB].take 1 }) :=
  ⟨(insert_disk_metrics_atomicity emptyConn [drowA, drowB]
      (fun _ => false)).1 (fun j _ => rfl),
   (insert_disk_metrics_atomicity emptyConn [drowA, drowB]
      (fun k => decide (k = 1))).2 1 (by decide) (by decide)
      (fun i hi => by
        interval_cases i
        decide)⟩

/-- C2 counterexample: after the two-row batch fails on its second
INSERT, zero batch rows are committed — but the very next successful
commit on the same connection (here a system-row insert) publishes the
first row of the failed batch, so the batch is not atomic across later
commits. -/
theorem insert_disk_partial_rows_visible_after_later_commit :
    (insert_disk_metrics emptyConn [drowA, drowB]
      (fun k => decide (k = 1))).raised = true ∧
    (insert_disk_metrics emptyConn [drowA, drowB]
      (fun k => decide (k = 1))).conn.committed.disk_metrics = [] ∧
    (insert_system_metrics
      (insert_disk_metrics emptyConn [drowA, drowB]
        (fun k => decide (k = 1))).conn srowA
      false).conn.committed.disk_metrics = [drowA] := by
  decide

theorem countP_add_length_filter_not {α : Type} (p : α → Bool) (l : List α) :
    l.countP p + (l.filter (fun a => !p a)).length = l.length := by
  induction l with
  | nil => rfl
  | cons a l ih =>
    by_cases h : p a <;>
      simp [List.filter_cons, List.countP_cons, h] <;> omega

theorem filter_not_eq_self_of_countP_zero {α : Type} (p : α → Bool)
    (l : List α) (h : l.countP p = 0) : l.filter (fun a => !p a) = l := by
  apply List.filter_eq_self.mpr
  intro a ha
  have h2 : p a = false := by simpa using List.countP_eq_zero.mp h a ha
  simp [h2]

theorem cleanup_logged (c : Conn) (cut : PyDateTime) :
    (cleanup_old_data c cut none).logged =
      (if 0 < (curOf c).system_metrics.countP
            (fun r => lexLt r.timestamp (isoformatSpace cut)) ∨
          0 < (curOf c).disk_metrics.countP
            (fun r => lexLt r.timestamp (isoformatSpace cut)) ∨
          0 < (curOf c).temperature_metrics.countP
            (fun r => lexLt r.timestamp (isoformatSpace cut)) then
        some ((curOf c).system_metrics.countP
            (fun r => lexLt r.timestamp (isoformatSpace cut)),
          (curOf c).disk_metrics.countP
            (fun r => lexLt r.timestamp (isoformatSpace cut)),
          (curOf c).temperature_metrics.countP
            (fun r => lexLt r.timestamp (isoformatSpace cut)))
      else none) := by
  simp [cleanup_old_data, execDML, curOf, or_assoc]

/-- C7 amended: `cleanup_old_data` computes the per-table deleted
counts and logs them when any is positive, but always returns `None`
to its caller; the counts it logs are exactly the rows each DELETE
removed from the corresponding table. -/
theorem cleanup_logs_counts_returns_none (c : Conn) (cut : PyDateTime)
    (failAt : Option Nat) :
    (cleanup_old_data c cut failAt).ret = none ∧
    (∀ ds dd dtc,
      (cleanup_old_data c cut none).logged = some (ds, dd, dtc) →
      ds + (cleanup_old_data c cut
          none).conn.committed.system_metrics.length =
        (curOf c).system_metrics.length ∧
      dd + (cleanup_old_data c cut
          none).conn.committed.disk_metrics.length =
        (curOf c).disk_metrics.length ∧
      dtc + (cleanup_old_data c cut
          none).conn.committed.temperature_metrics.length =
        (curOf c).temperature_metrics.length) ∧
    ((cleanup_old_data c cut none).logged = none →
      (cleanup_old_data c cut none).conn.committed = curOf c) := by
  have hcomm := cleanup_committed c cut
  refine ⟨?_, ?_, ?_⟩
  · simp only [cleanup_old_data]
    split_ifs <;> rfl
  · intro ds dd dtc h
    rw [cleanup_logged] at h
    split_ifs at h with hc
    simp only [Option.some.injEq, Prod.mk.injEq] at h
    obtain ⟨e1, e2, e3⟩ := h
    rw [hcomm, ← e1, ← e2, ← e3]
    refine ⟨?_, ?_, ?_⟩
    · exact countP_add_length_filter_not _ _
    · exact countP_add_length_filter_not _ _
    · exact countP_add_length_filter_not _ _
  · intro h
    rw [cleanup_logged] at h
    split_ifs at h with hc
    push_neg at hc
    obtain ⟨h1, h2, h3⟩ := hc
    rw [hcomm,
      filter_not_eq_self_of_countP_zero _ _ (by omega),
      filter_not_eq_self_of_countP_zero _ _ (by omega),
      filter_not_eq_self_of_countP_zero _ _ (by omega)]

/-- Witness for the amended C7: on a database with one stale disk row
the sweep still returns `None`, while the logged counts match the one
deleted row. -/
theorem cleanup_logs_counts_returns_none_witness :
    (cleanup_old_data connOld dt1 none).ret = none ∧
    (0 + (cleanup_old_data connOld dt1
        none).conn.committed.system_metrics.length =
      (curOf connOld).system_metrics.length ∧
    1 + (cleanup_old_data connOld dt1
        none).conn.committed.disk_metrics.length =
      (curOf connOld).disk_metrics.length ∧
    0 + (cleanup_old_data connOld dt1
        none).conn.committed.temperature_metrics.length =
      (curOf connOld).temperature_metrics.length) :=
  ⟨(cleanup_logs_counts_returns_none connOld dt1 none).1,
   (cleanup_logs_counts_returns_none connOld dt1 none).2.1 0 1 0
     (by decide)⟩

/-- C7 counterexample: a sweep that deletes one disk row logs the
counts `(0, 1, 0)` but returns `None`, not the counts, to its
caller. -/
theorem sweep_returns_none_not_counts :
    (cleanup_old_data connOld dt1 none).ret = none ∧
    (cleanup_old_data connOld dt1 none).logged = some (0, 1, 0) ∧
    (cleanup_old_data connOld dt1 none).conn.committed.disk_metrics
      = [] := by
  decide

/-- Fixture: a sample taken at 03:00 on the cutoff's own calendar
day. -/
def dtRowEarly : PyDateTime := ⟨2024, 1, 5, 3, 0, 0, 0⟩

/-- Fixture: a retention cutoff at 06:00 of the same day. -/
def dtCut : PyDateTime := ⟨2024, 1, 5, 6, 0, 0, 0⟩

/-- Fixture: a disk row stamped at `dtRowEarly`. -/
def drowEarly : DiskRow :=
  ⟨isoformatT dtRowEarly, "/dev/sda1", "/", 100, 50, 50, 50⟩

/-- Fixture: a database holding only `drowEarly`. -/
def tablesSameDay : Tables := ⟨[], [drowEarly], []⟩

/-- Fixture: an idle connection on `tablesSameDay`. -/
def connSameDay : Conn := ⟨tablesSameDay, tablesSameDay, false⟩

/-- C1 counterexample: a row whose timestamp strictly precedes the
cutoff (same calendar day, three hours earlier) survives the retention
sweep, because the stored 'T'-separated string compares above the
space-separated cutoff string. -/
theorem same_day_older_row_survives_sweep :
    dtKey dtRowEarly < dtKey dtCut ∧
    (cleanup_old_data connSameDay dtCut none).conn.committed.disk_metrics
      = [drowEarly] := by
  decide

/-- C1 amended: the sweep deletes a row if and only if its calendar
date strictly precedes the cutoff's calendar date.  Hence every row
dated a strictly earlier day is deleted from every table, no row with
timestamp at or after the cutoff is deleted, and rows on the cutoff's
own day survive even when their time of day precedes the cutoff. -/
theorem cleanup_prunes_by_calendar_date (c : Conn) (cut rdt : PyDateTime)
    (hcut : cut.Bounded) (hrdt : rdt.Bounded) :
    (dateKey rdt < dateKey cut →
      (∀ r ∈ (cleanup_old_data c cut
          none).conn.committed.system_metrics,
        r.timestamp ≠ isoformatT rdt) ∧
      (∀ r ∈ (cleanup_old_data c cut none).conn.committed.disk_metrics,
        r.timestamp ≠ isoformatT rdt) ∧
      (∀ r ∈ (cleanup_old_data c cut
          none).conn.committed.temperature_metrics,
        r.timestamp ≠ isoformatT rdt)) ∧
    (dateKey cut ≤ dateKey rdt →
      (∀ r ∈ (curOf c).system_metrics, r.timestamp = isoformatT rdt →
        r ∈ (cleanup_old_data c cut
          none).conn.committed.system_metrics) ∧
      (∀ r ∈ (curOf c).disk_metrics, r.timestamp = isoformatT rdt →
        r ∈ (cleanup_old_data c cut none).conn.committed.disk_metrics) ∧
      (∀ r ∈ (curOf c).temperature_metrics,
        r.timestamp = isoformatT rdt →
        r ∈ (cleanup_old_data c cut
          none).conn.committed.temperature_metrics)) ∧
    (dtKey cut ≤ dtKey rdt → dateKey cut ≤ dateKey rdt) := by
  have hsw := lexLt_isoT_isoSpace hrdt hcut
  have hcomm := cleanup_committed c cut
  refine ⟨?_, ?_, fun h => dtKey_le_imp_dateKey_le hcut hrdt h⟩
  · intro hlt
    rw [hcomm]
    refine ⟨?_, ?_, ?_⟩ <;>
      · intro r hr he
        rw [List.mem_filter] at hr
        rw [he, hsw] at hr
        simp [hlt] at hr
  · intro hge
    rw [hcomm]
    refine ⟨?_, ?_, ?_⟩ <;>
      · intro r hr he
        rw [List.mem_filter]
        refine ⟨hr, ?_⟩
        rw [he, hsw]
        simp
        omega

/-- Witness for the amended C1: the same-day earlier row is kept by the
sweep (its calendar date equals the cutoff's). -/
theorem cleanup_prunes_by_calendar_date_witness :
    drowEarly ∈
      (cleanup_old_data connSameDay dtCut
        none).conn.committed.disk_metrics :=
  ((cleanup_prunes_by_calendar_date connSameDay dtCut dtRowEarly
      (by decide) (by decide)).2.1 (by decide)).2.1 drowEarly
    (by decide) rfl
